import Mathlib

/-!
Verification of the local persistence and file-reference synchronization layer
of the Insurance-Claim-System demo (a static client-side claim-form wizard).

The development is a shallow embedding of the JavaScript source:

* `AppState` / `DataStorage` (js/app.js): the in-memory session (form-field
  map, uploaded-file list), the `isSubmitted` flag, the localStorage metadata
  snapshot (`saveToStorage` / `loadFromStorage`), the periodic auto-save
  sweep, the legacy base64-to-IndexedDB migration (`migrateLegacy`),
  `getClaimData`, `removeFile`, `confirmSignature`, `exportUploadedFiles`.
* `FileHandler` (js/app.js): `validateFile` / `processFiles`.
* `sw.js`: the `/claim-data` fetch handler answered over a message channel.

Browser-environment primitives that the code calls but does not define
(`atob` base64 decoding, IndexedDB transaction success/failure, fresh id
generation from `Date.now()` plus randomness, `FileReader` results) are
modelled as an explicit deterministic environment record `Env`.  DOM calls
(`displayUploadedFiles`, `showMessage` rendering, modal handling) have no
effect on the persisted or in-memory claim data and are either omitted or
modelled as emitted `Message` values.  `localStorage.setItem` is modelled as
succeeding; its `catch` branch in the source only shows a message.
JavaScript objects are modelled as association lists, `JSON` round-tripping
of the snapshot as the identity on the structured `Snapshot` value.
-/

namespace ICS

/-- A primitive form-field value: the app stores strings and checkbox
booleans in `AppState.formData`. -/
inductive FieldValue where
  | str (s : String)
  | bool (b : Bool)
deriving DecidableEq, Repr

/-- `AppState.formData`: a JavaScript object mapping field ids to values,
modelled as an association list in property-insertion order. -/
abbrev FormData := List (String × FieldValue)

/-- JavaScript property assignment `obj[k] = v`: overwrite in place if the
key exists, otherwise append the new property. -/
def objSet (m : FormData) (k : String) (v : FieldValue) : FormData :=
  if (m.map Prod.fst).contains k then
    m.map (fun p => if p.1 = k then (k, v) else p)
  else m ++ [(k, v)]

/-- An entry of `AppState.uploadedFiles`.  Reference form has `id = some _`
and `data = none`; the legacy (or freshly uploaded) form carries the inline
base64 data URL in `data`.  `none` models an absent JavaScript property. -/
structure FileDescriptor where
  id : Option String
  name : String
  size : Nat
  type : String
  data : Option String
deriving DecidableEq, Repr

/-- A binary object as stored in IndexedDB: decoded bytes plus a MIME type
(`new Blob([byteArray], { type })`). -/
structure Blob where
  bytes : List Nat
  type : String
deriving DecidableEq, Repr

/-- The JSON value written by `saveToStorage` under the
`insurance-claim-data` key, and the object returned by `getClaimData`. -/
structure Snapshot where
  formData : FormData
  uploadedFiles : List FileDescriptor
  timestamp : String
deriving DecidableEq, Repr

/-- The whole mutable state relevant to persistence: `AppState` fields,
the `DataStorage.isSubmitted` flag, the localStorage snapshot (`none` =
key absent) and the IndexedDB `files` object store (keyed by file id). -/
structure SessionState where
  formData : FormData
  uploadedFiles : List FileDescriptor
  currentStep : Nat
  isSubmitted : Bool
  localStore : Option Snapshot
  blobStore : List (String × Blob)
deriving DecidableEq, Repr

/-- A raw browser `File` offered to the upload zone (its binary content is
only reachable through `Env.readFile`). -/
structure RawFile where
  name : String
  size : Nat
  type : String
deriving DecidableEq, Repr

/-- Deterministic model of the browser primitives the source calls:
`atob` (returns `none` where `atob` throws on malformed base64),
IndexedDB `put` success (`canStore`, `false` where the transaction errors),
fresh id generation (indexed by how many ids were generated so far, standing
for the `Date.now()` + random suffix in the source), and the `FileReader`
data-URL result for an uploaded file (`none` where the reader errors). -/
structure Env where
  atob : String → Option (List Nat)
  canStore : Blob → Bool
  genId : Nat → String
  readFile : RawFile → Option String

/-- A notification emitted through `showMessage(text, kind)`. -/
structure Message where
  text : String
  kind : String
deriving DecidableEq, Repr

/-- Projection used by `saveToStorage`: each uploaded file is saved as
`{ id, name, size, type }` only (the inline `data` property is dropped). -/
def projectFile (f : FileDescriptor) : FileDescriptor :=
  { id := f.id, name := f.name, size := f.size, type := f.type, data := none }

/-- `DataStorage.saveToStorage()`: a no-op once `isSubmitted` is set,
otherwise overwrites the localStorage snapshot with the form-field map, the
projected file descriptors and a timestamp. -/
def saveToStorage (s : SessionState) (ts : String) : SessionState :=
  if s.isSubmitted then s
  else { s with
          localStore := some ⟨s.formData, s.uploadedFiles.map projectFile, ts⟩ }

/-- One firing of the 30-second auto-save interval installed by
`DataStorage.init`: `if (!this.isSubmitted) this.saveToStorage()`. -/
def autoSaveTick (s : SessionState) (ts : String) : SessionState :=
  if s.isSubmitted then s else saveToStorage s ts

/-- JavaScript `String.prototype.split(',')` on a character list, splitting
at every comma. -/
def splitOnCommaAux : List Char → List Char → List (List Char)
  | [], acc => [acc.reverse]
  | c :: rest, acc =>
    if c = ',' then acc.reverse :: splitOnCommaAux rest []
    else splitOnCommaAux rest (c :: acc)

/-- The base64 payload the source extracts from a data URL:
`const parts = s.split(','); const base64 = parts[1] || ''`. -/
def dataUrlPayload (s : String) : String :=
  String.mk ((splitOnCommaAux s.toList []).getD 1 [])

/-- The MIME type the migration gives a decoded blob:
`f.type || 'application/octet-stream'`. -/
def blobType (f : FileDescriptor) : String :=
  if f.type = "" then "application/octet-stream" else f.type

/-- `IDBHelper.putFile(id, blob)` on an object store with `keyPath: 'id'`:
`put` overwrites the record with that key, or inserts a new one. -/
def idbPut (store : List (String × Blob)) (id : String) (b : Blob) :
    List (String × Blob) :=
  if (store.map Prod.fst).contains id then
    store.map (fun e => if e.1 = id then (id, b) else e)
  else store ++ [(id, b)]

/-- Whether one pass of `migrateLegacy` converts this descriptor: it carries
inline `data`, `atob` decodes the payload, and the IndexedDB `put` succeeds
for the resulting blob. -/
def migrates (env : Env) (f : FileDescriptor) : Bool :=
  match f.data with
  | none => false
  | some d =>
    match env.atob (dataUrlPayload d) with
    | none => false
    | some bytes => env.canStore ⟨bytes, blobType f⟩

/-- Result of the migration loop body for one descriptor. -/
structure ItemResult where
  file : FileDescriptor
  store : List (String × Blob)
  ctr : Nat
  migrated : Bool

/-- One iteration of the `migrateLegacy` loop for descriptor `f`: skip inert
entries (`if (f && f.data)`), decode the data URL (`atob` throwing is the
outer catch, entry left untouched), generate a fresh id, attempt the
IndexedDB `put` (failure is the inner catch, entry left untouched), and on
success replace the descriptor with `{ id, name, size, type }`.  `ctr`
counts calls to the id generator. -/
def migrateItem (env : Env) (ctr : Nat) (store : List (String × Blob))
    (f : FileDescriptor) : ItemResult :=
  match f.data with
  | none => ⟨f, store, ctr, false⟩
  | some d =>
    match env.atob (dataUrlPayload d) with
    | none => ⟨f, store, ctr, false⟩
    | some bytes =>
      let b : Blob := ⟨bytes, blobType f⟩
      let id := env.genId ctr
      if env.canStore b then
        ⟨⟨some id, f.name, f.size, f.type, none⟩, idbPut store id b, ctr + 1, true⟩
      else ⟨f, store, ctr + 1, false⟩

/-- Result of the whole migration loop. -/
structure MigrateResult where
  files : List FileDescriptor
  store : List (String × Blob)
  ctr : Nat
  migrated : Bool

/-- The `for` loop of `migrateLegacy` over `AppState.uploadedFiles`,
threading the blob store and the id counter and accumulating the
`migrated` flag. -/
def migrateFiles (env : Env) : Nat → List (String × Blob) →
    List FileDescriptor → MigrateResult
  | ctr, store, [] => ⟨[], store, ctr, false⟩
  | ctr, store, f :: fs =>
    let r1 := migrateItem env ctr store f
    let r2 := migrateFiles env r1.ctr r1.store fs
    ⟨r1.file :: r2.files, r2.store, r2.ctr, r1.migrated || r2.migrated⟩

/-- The `migrateLegacy` async function run during `loadFromStorage`: migrate
every legacy descriptor and, if anything was migrated, re-save the metadata
snapshot.  Returns the new session state and the id-generator counter. -/
def migrateLegacy (env : Env) (ctr : Nat) (ts : String) (s : SessionState) :
    SessionState × Nat :=
  let r := migrateFiles env ctr s.blobStore s.uploadedFiles
  let s' := { s with uploadedFiles := r.files, blobStore := r.store }
  (if r.migrated then saveToStorage s' ts else s', r.ctr)

/-- `DataStorage.loadFromStorage()`: if a snapshot is present, rehydrate
`AppState.formData` and `AppState.uploadedFiles` from it and run the legacy
migration (the `fillFormData` DOM pass is omitted).  With no snapshot the
state is left as constructed. -/
def loadFromStorage (env : Env) (ctr : Nat) (ts : String) (s : SessionState) :
    SessionState × Nat :=
  match s.localStore with
  | none => (s, ctr)
  | some snap =>
    migrateLegacy env ctr ts
      { s with formData := snap.formData, uploadedFiles := snap.uploadedFiles }

/-- `DataStorage.getClaimData()`: the snapshot handed to the page API and the
service-worker bridge — the form-field map and the *raw* in-memory uploaded
file list, plus a timestamp. -/
def getClaimData (s : SessionState) (ts : String) : Snapshot :=
  ⟨s.formData, s.uploadedFiles, ts⟩

/-- A message on the service-worker bridge (`{ type, data }`). -/
structure BridgeMessage where
  type : String
  data : Snapshot
deriving DecidableEq, Repr

/-- The page-side `navigator.serviceWorker` message handler: on a
`REQUEST_CLAIM_DATA` request it posts `{ type: 'CLAIM_DATA_RESPONSE',
data: storage.getClaimData() }` on the reply channel, otherwise nothing. -/
def handlePageMessage (s : SessionState) (ts : String) (reqType : String) :
    Option BridgeMessage :=
  if reqType = "REQUEST_CLAIM_DATA" then
    some ⟨"CLAIM_DATA_RESPONSE", getClaimData s ts⟩
  else none

/-- `window.confirmSignature`: store the signature-canvas PNG data URL under
`formData.claimSignature`, persist, and advance the step (modal/DOM calls
omitted). -/
def confirmSignature (s : SessionState) (dataUrl ts : String) : SessionState :=
  let s1 := { s with
               formData := objSet s.formData "claimSignature" (FieldValue.str dataUrl) }
  let s2 := saveToStorage s1 ts
  { s2 with currentStep := s2.currentStep + 1 }

/-- JavaScript `list.splice(i, 1)` (ECMAScript index normalization: a
negative start counts from the end, clamped at 0; a start at or past the
end deletes nothing). -/
def spliceRemoveOne {α : Type} (l : List α) (i : Int) : List α :=
  let len : Int := (l.length : Int)
  let start : Nat := if i < 0 then (len + i).toNat else (min i len).toNat
  l.take start ++ l.drop (start + 1)

/-- `DataStorage.removeFile(index)`: `AppState.uploadedFiles.splice(index, 1)`
followed by re-persisting the metadata (list re-rendering and the info
message omitted). -/
def removeFile (s : SessionState) (i : Int) (ts : String) : SessionState :=
  saveToStorage { s with uploadedFiles := spliceRemoveOne s.uploadedFiles i } ts

/-- `FileHandler.maxFileSize`: 10MB. -/
def maxFileSize : Nat := 10 * 1024 * 1024

/-- `FileHandler.allowedTypes`. -/
def allowedTypes : List String :=
  ["image/jpeg", "image/png", "image/gif", "application/pdf"]

/-- `FileHandler.validateFile(file)`: returns whether the file is accepted
together with the notifications emitted while validating (one error message
per rejection, type checked before size). -/
def validateFile (f : RawFile) : Bool × List Message :=
  if f.type ∈ allowedTypes then
    if f.size > maxFileSize then
      (false, [⟨"File too large: " ++ f.name ++ " (max 10MB)", "error"⟩])
    else (true, [])
  else (false, [⟨"Unsupported file type: " ++ f.name, "error"⟩])

/-- The body of the `FileHandler.processFiles` loop for one file: skip files
failing validation; read the file as a data URL (reader failure is the
catch branch); on success push the `{ name, size, type, data }` record,
persist, and emit the success message. -/
def processFile (env : Env) (ts : String) (s : SessionState) (f : RawFile) :
    SessionState × List Message :=
  if (validateFile f).1 then
    match env.readFile f with
    | none => (s, [⟨"File " ++ f.name ++ " processing failed", "error"⟩])
    | some dataUrl =>
      (saveToStorage
        { s with uploadedFiles :=
            s.uploadedFiles ++ [⟨none, f.name, f.size, f.type, some dataUrl⟩] } ts,
       [⟨"File " ++ f.name ++ " uploaded successfully", "success"⟩])
  else (s, (validateFile f).2)

/-- `FileHandler.processFiles(files)`: process the batch in order,
collecting every emitted notification. -/
def processFiles (env : Env) (ts : String) :
    SessionState → List RawFile → SessionState × List Message
  | s, [] => (s, [])
  | s, f :: fs =>
    let r1 := processFile env ts s f
    let r2 := processFiles env ts r1.1 fs
    (r2.1, r1.2 ++ r2.2)

/-- An observable outcome of exporting one uploaded file: either a triggered
browser download of the reconstructed blob, or the per-file error
notification `Failed to export file: <name>`. -/
inductive ExportEvent where
  | download (name : String) (blob : Blob)
  | exportError (name : String)
deriving DecidableEq, Repr

/-- The body of the `exportUploadedFiles` loop for one file: reading
`file.data.split(',')[1]` throws on a descriptor without `data` (caught,
error message); `atob` may throw on a malformed payload (same catch);
otherwise a download of `new Blob([byteArray], { type: file.type })` is
triggered.  The 500ms stagger and the sanitized download filename are
scheduling/naming detail not modelled. -/
def exportOneFile (env : Env) (f : FileDescriptor) : ExportEvent :=
  match f.data with
  | none => ExportEvent.exportError f.name
  | some d =>
    match env.atob (dataUrlPayload d) with
    | none => ExportEvent.exportError f.name
    | some bytes => ExportEvent.download f.name ⟨bytes, f.type⟩

/-- `DataStorage.exportUploadedFiles`: one export attempt per uploaded file,
in list order (an empty list produces no events). -/
def exportUploadedFiles (env : Env) (files : List FileDescriptor) :
    List ExportEvent :=
  files.map (exportOneFile env)

/-- The body of a synthesized `/claim-data` response. -/
inductive SWBody where
  | json (data : Snapshot)
  | errorBody (msg : String)
deriving DecidableEq, Repr

/-- A synthesized `Response` from the service worker. -/
structure SWResponse where
  status : Nat
  body : SWBody
deriving DecidableEq, Repr

/-- What the service worker observes on the reply port before deciding:
either the 1500ms timer fired first, or a message arrived (whose `data` may
be null, modelled as `none`). -/
inductive ReplyOutcome where
  | timeout
  | reply (m : Option BridgeMessage)
deriving DecidableEq, Repr

/-- The reply timeout in `sw.js`: `setTimeout(() => reject('timeout'), 1500)`. -/
def swTimeoutMs : Nat := 1500

/-- The `sw.js` fetch handler for `/claim-data`: with no connected client it
answers 500 `{ error: 'no-client' }`; with a client it forwards the request
and, depending on what wins on the reply port, answers 200 with the snapshot
JSON for a conforming `CLAIM_DATA_RESPONSE`, or 500 with `String(e)` for the
rejection (`'timeout'` from the timer, `'no-data'` for a non-conforming
message). -/
def swHandleClaimData (clients : List String) (firstReply : ReplyOutcome) :
    SWResponse :=
  match clients with
  | [] => ⟨500, SWBody.errorBody "no-client"⟩
  | _ :: _ =>
    match firstReply with
    | ReplyOutcome.timeout => ⟨500, SWBody.errorBody "timeout"⟩
    | ReplyOutcome.reply none => ⟨500, SWBody.errorBody "no-data"⟩
    | ReplyOutcome.reply (some m) =>
      if m.type = "CLAIM_DATA_RESPONSE" then ⟨200, SWBody.json m.data⟩
      else ⟨500, SWBody.errorBody "no-data"⟩

/-- Structural prefix test on character lists (specification-side helper). -/
def listStartsWith : List Char → List Char → Bool
  | _, [] => true
  | [], _ :: _ => false
  | c :: cs, p :: ps => if c = p then listStartsWith cs ps else false

/-- Whether a string is a data URL (starts with `data:`) — the shape of
inline base64 binary content in this app. -/
def strHasDataUrlStart (s : String) : Bool :=
  listStartsWith s.toList ("data:".toList)

/-- Whether a form-field value is an inline data URL. -/
def fieldValueIsDataUrl : FieldValue → Bool
  | FieldValue.str s => strHasDataUrlStart s
  | FieldValue.bool _ => false

/-- Whether a snapshot's form-field map carries inline base64 content. -/
def snapshotFormDataHoldsDataUrl (snap : Snapshot) : Bool :=
  snap.formData.any (fun p => fieldValueIsDataUrl p.2)

/-- Whether any file entry of a snapshot carries an inline `data` payload. -/
def snapshotHasInlineFileData (snap : Snapshot) : Bool :=
  snap.uploadedFiles.any (fun f => f.data.isSome)

/-- A fresh session as built by the `DataStorage` constructor on an empty
browser profile. -/
def emptyState : SessionState :=
  { formData := [], uploadedFiles := [], currentStep := 1, isSubmitted := false
    localStore := none, blobStore := [] }

/-- A submitted session used to witness `submitted_blocks_persistence`. -/
def submittedState : SessionState :=
  { formData := [("insured-name", FieldValue.str "Jane Doe")]
    uploadedFiles := [⟨some "file-1", "scan.pdf", 2048, "application/pdf", none⟩]
    currentStep := 3
    isSubmitted := true
    localStore := some ⟨[("insured-name", FieldValue.str "Jane Doe")],
      [⟨some "file-1", "scan.pdf", 2048, "application/pdf", none⟩], "t0"⟩
    blobStore := [("file-1", ⟨[37, 80, 68, 70], "application/pdf"⟩)] }

/-- A concrete deterministic environment for witnesses: `atob` only decodes
the payload `AAAA`, every blob fits in the store, ids are numbered, and the
file reader yields a fixed PNG data URL. -/
def envW : Env :=
  { atob := fun p => if p = "AAAA" then some [0, 1, 2] else none
    canStore := fun _ => true
    genId := fun n => "file-" ++ String.mk (Nat.toDigits 10 n)
    readFile := fun _ => some "data:image/png;base64,AAAA" }

/-- A well-formed PNG upload. -/
def pngW : RawFile := ⟨"photo.png", 4, "image/png"⟩

/-- A `text/plain` upload, outside the allow-list. -/
def txtW : RawFile := ⟨"notes.txt", 5, "text/plain"⟩

/-- A legacy descriptor whose payload decodes and stores successfully
under `envW`. -/
def legacyGoodW : FileDescriptor :=
  ⟨none, "old.png", 3, "image/png", some "data:image/png;base64,AAAA"⟩

/-- A legacy descriptor whose payload `atob` cannot decode under `envW`. -/
def legacyBadW : FileDescriptor :=
  ⟨none, "corrupt.png", 9, "image/png", some "data:image/png;base64,@@@"⟩

/-- A reference-form descriptor (no inline data). -/
def refFileW : FileDescriptor :=
  ⟨some "file-7", "report.pdf", 1024, "application/pdf", none⟩

/-- The session state right after uploading `pngW` into `emptyState`. -/
def uploadedStateW : SessionState :=
  (processFile envW "t0" emptyState pngW).1

/-- An active session whose files are all in reference form. -/
def refStateW : SessionState :=
  { formData := [("phone", FieldValue.str "+15551234567"),
                 ("agreement", FieldValue.bool true)]
    uploadedFiles := [refFileW]
    currentStep := 2
    isSubmitted := false
    localStore := none
    blobStore := [("file-7", ⟨[37, 80], "application/pdf"⟩)] }

/-- A concrete signature-canvas data URL. -/
def sigUrlW : String := "data:image/png;base64,iVBORw0KGgoAAA"

/-- Two reference-form descriptors and a session holding both, for the
`removeFile` claims. -/
def fileAW : FileDescriptor := ⟨some "file-a", "a.png", 1, "image/png", none⟩

/-- Second descriptor for the `removeFile` claims. -/
def fileBW : FileDescriptor := ⟨some "file-b", "b.png", 2, "image/png", none⟩

/-- A session holding `fileAW` and `fileBW`. -/
def twoFilesStateW : SessionState :=
  { formData := [], uploadedFiles := [fileAW, fileBW], currentStep := 3
    isSubmitted := false, localStore := none, blobStore := [] }

/- ------------------------------------------------------------------ -/
/- Theorems.                                                          -/
/- ------------------------------------------------------------------ -/

theorem saveToStorage_uploadedFiles (s : SessionState) (ts : String) :
    (saveToStorage s ts).uploadedFiles = s.uploadedFiles := by
  unfold saveToStorage; split <;> rfl

theorem saveToStorage_blobStore (s : SessionState) (ts : String) :
    (saveToStorage s ts).blobStore = s.blobStore := by
  unfold saveToStorage; split <;> rfl

theorem saveToStorage_formData (s : SessionState) (ts : String) :
    (saveToStorage s ts).formData = s.formData := by
  unfold saveToStorage; split <;> rfl

theorem saveToStorage_isSubmitted (s : SessionState) (ts : String) :
    (saveToStorage s ts).isSubmitted = s.isSubmitted := by
  unfold saveToStorage; split <;> rfl

/-- Claim C1: once the `submitted` flag is true, a `saveToStorage` call
leaves the session — in particular the durable localStorage snapshot —
completely unchanged, and a firing of the periodic auto-save sweep likewise
performs no write. -/
theorem submitted_blocks_persistence (s : SessionState) (ts : String)
    (h : s.isSubmitted = true) :
    saveToStorage s ts = s ∧ autoSaveTick s ts = s := by
  constructor
  · unfold saveToStorage; rw [h]; rfl
  · unfold autoSaveTick; rw [h]; rfl

theorem submitted_blocks_persistence_witness :
    saveToStorage submittedState "t1" = submittedState ∧
    autoSaveTick submittedState "t1" = submittedState :=
  submitted_blocks_persistence submittedState "t1" rfl

theorem migrateFiles_cons (env : Env) (ctr : Nat) (store : List (String × Blob))
    (f : FileDescriptor) (rest : List FileDescriptor) :
    migrateFiles env ctr store (f :: rest) =
      ⟨(migrateItem env ctr store f).file ::
         (migrateFiles env (migrateItem env ctr store f).ctr
           (migrateItem env ctr store f).store rest).files,
       (migrateFiles env (migrateItem env ctr store f).ctr
         (migrateItem env ctr store f).store rest).store,
       (migrateFiles env (migrateItem env ctr store f).ctr
         (migrateItem env ctr store f).store rest).ctr,
       (migrateItem env ctr store f).migrated ||
         (migrateFiles env (migrateItem env ctr store f).ctr
           (migrateItem env ctr store f).store rest).migrated⟩ := rfl

theorem migrateItem_of_not_migrates (env : Env) (ctr : Nat)
    (store : List (String × Blob)) (f : FileDescriptor)
    (h : migrates env f = false) :
    (migrateItem env ctr store f).file = f ∧
    (migrateItem env ctr store f).store = store ∧
    (migrateItem env ctr store f).migrated = false := by
  cases hf : f.data with
  | none => simp [migrateItem, hf]
  | some d =>
    cases ha : env.atob (dataUrlPayload d) with
    | none => simp [migrateItem, hf, ha]
    | some bytes =>
      have hc : env.canStore ⟨bytes, blobType f⟩ = false := by
        simpa [migrates, hf, ha] using h
      simp [migrateItem, hf, ha, hc]

theorem migrateItem_of_migrates (env : Env) (ctr : Nat)
    (store : List (String × Blob)) (f : FileDescriptor)
    (h : migrates env f = true) :
    (migrateItem env ctr store f).file =
      ⟨some (env.genId ctr), f.name, f.size, f.type, none⟩ ∧
    (migrateItem env ctr store f).migrated = true := by
  cases hf : f.data with
  | none => simp [migrates, hf] at h
  | some d =>
    cases ha : env.atob (dataUrlPayload d) with
    | none => simp [migrates, hf, ha] at h
    | some bytes =>
      have hc : env.canStore ⟨bytes, blobType f⟩ = true := by
        simpa [migrates, hf, ha] using h
      simp [migrateItem, hf, ha, hc]

theorem migrates_false_of_data_none (env : Env) (f : FileDescriptor)
    (h : f.data = none) : migrates env f = false := by
  simp [migrates, h]

theorem migrateFiles_output_stable (env : Env) :
    ∀ (fs : List FileDescriptor) (ctr : Nat) (store : List (String × Blob)),
    ∀ f' ∈ (migrateFiles env ctr store fs).files, migrates env f' = false := by
  intro fs
  induction fs with
  | nil => intro ctr store f' h; simp [migrateFiles] at h
  | cons f rest ih =>
    intro ctr store f' h
    rw [migrateFiles_cons] at h
    rcases List.mem_cons.mp h with h1 | h1
    · by_cases hm : migrates env f = true
      · obtain ⟨hfile, _⟩ := migrateItem_of_migrates env ctr store f hm
        rw [h1, hfile]
        exact migrates_false_of_data_none env _ rfl
      · have hm' : migrates env f = false := by
          revert hm; cases migrates env f <;> simp
        obtain ⟨hfile, _, _⟩ := migrateItem_of_not_migrates env ctr store f hm'
        rw [h1, hfile]; exact hm'
    · exact ih _ _ f' h1

theorem migrateFiles_stable (env : Env) :
    ∀ (fs : List FileDescriptor) (ctr : Nat) (store : List (String × Blob)),
    (∀ f ∈ fs, migrates env f = false) →
    (migrateFiles env ctr store fs).files = fs ∧
    (migrateFiles env ctr store fs).store = store ∧
    (migrateFiles env ctr store fs).migrated = false := by
  intro fs
  induction fs with
  | nil => intro ctr store _; exact ⟨rfl, rfl, rfl⟩
  | cons f rest ih =>
    intro ctr store hall
    have hf : migrates env f = false := hall f (List.mem_cons_self f rest)
    obtain ⟨h1, h2, h3⟩ := migrateItem_of_not_migrates env ctr store f hf
    obtain ⟨r1, r2, r3⟩ := ih (migrateItem env ctr store f).ctr
      (migrateItem env ctr store f).store
      (fun g hg => hall g (List.mem_cons_of_mem f hg))
    rw [migrateFiles_cons]
    refine ⟨?_, ?_, ?_⟩
    · show (migrateItem env ctr store f).file :: _ = f :: rest
      rw [h1, r1]
    · rw [r2, h2]
    · show ((migrateItem env ctr store f).migrated || _) = false
      rw [h3, r3]
      rfl

theorem migrateLegacy_result_fields (env : Env) (ctr : Nat) (ts : String)
    (s : SessionState) :
    ((migrateLegacy env ctr ts s).1).uploadedFiles =
      (migrateFiles env ctr s.blobStore s.uploadedFiles).files ∧
    ((migrateLegacy env ctr ts s).1).blobStore =
      (migrateFiles env ctr s.blobStore s.uploadedFiles).store := by
  unfold migrateLegacy
  by_cases h : (migrateFiles env ctr s.blobStore s.uploadedFiles).migrated
  · simp only [h, if_true]
    exact ⟨saveToStorage_uploadedFiles _ _, saveToStorage_blobStore _ _⟩
  · simp only [h, if_false]
    exact ⟨rfl, rfl⟩

/-- Claim C4: legacy migration is idempotent — running `migrateLegacy` a
second time on the output of a first run (under the same deterministic
browser environment, with fresh id counters and timestamps of the second
run arbitrary) returns that state unchanged: every descriptor left without
inline data stays untouched, nothing is re-encoded, no blob-store entry is
added, and no fresh metadata save is triggered. -/
theorem legacy_migration_idempotent (env : Env) (s : SessionState)
    (ctr1 ctr2 : Nat) (ts1 ts2 : String) :
    (migrateLegacy env ctr2 ts2 (migrateLegacy env ctr1 ts1 s).1).1 =
      (migrateLegacy env ctr1 ts1 s).1 := by
  obtain ⟨hf, _⟩ := migrateLegacy_result_fields env ctr1 ts1 s
  have hall : ∀ f ∈ ((migrateLegacy env ctr1 ts1 s).1).uploadedFiles,
      migrates env f = false := by
    rw [hf]
    exact fun f hmem => migrateFiles_output_stable env _ _ _ f hmem
  generalize (migrateLegacy env ctr1 ts1 s).1 = s1 at hall ⊢
  obtain ⟨h1, h2, h3⟩ := migrateFiles_stable env s1.uploadedFiles ctr2
    s1.blobStore hall
  unfold migrateLegacy
  dsimp only
  simp only [h1, h2, h3, Bool.false_eq_true, if_false]

/-- Claim C7: per-item migration failure is isolated.  The migration loop
maps the descriptor list pointwise: an entry whose decoding or blob-store
write fails (and any entry with no inline data) is left exactly as it was,
while every entry that can be migrated is still rewritten to reference form
(a fresh id, the same name/size/type, inline data stripped) — one failing
entry never aborts the rest of the batch. -/
theorem migration_failure_isolated (env : Env) (ctr : Nat)
    (store : List (String × Blob)) (fs : List FileDescriptor) :
    List.Forall₂ (fun f f' =>
      (migrates env f = false → f' = f) ∧
      (migrates env f = true →
        f'.id.isSome = true ∧ f'.data = none ∧ f'.name = f.name ∧
        f'.size = f.size ∧ f'.type = f.type))
      fs (migrateFiles env ctr store fs).files := by
  induction fs generalizing ctr store with
  | nil => exact List.Forall₂.nil
  | cons f rest ih =>
    rw [migrateFiles_cons]
    refine List.Forall₂.cons ⟨?_, ?_⟩ (ih _ _)
    · intro hm
      exact (migrateItem_of_not_migrates env ctr store f hm).1
    · intro hm
      obtain ⟨hfile, _⟩ := migrateItem_of_migrates env ctr store f hm
      rw [hfile]
      exact ⟨rfl, rfl, rfl, rfl, rfl⟩

theorem projectFile_self (f : FileDescriptor) (h : f.data = none) :
    projectFile f = f := by
  cases f with
  | mk i n sz t d =>
    simp only [projectFile]
    simp only [FileDescriptor.data] at h
    rw [h]

theorem migrateLegacy_formData (env : Env) (ctr : Nat) (ts : String)
    (s : SessionState) :
    ((migrateLegacy env ctr ts s).1).formData = s.formData := by
  unfold migrateLegacy
  by_cases h : (migrateFiles env ctr s.blobStore s.uploadedFiles).migrated
  · simp only [h, if_true]
    exact saveToStorage_formData _ _
  · simp only [h, Bool.false_eq_true, if_false]

/-- Claim C5: for a session whose file descriptors are all in reference form
(no inline data), `saveToStorage` followed by `loadFromStorage` (which also
runs the legacy migration, a no-op here) reproduces the form-field map and
the file-descriptor list exactly. -/
theorem save_load_roundtrip (env : Env) (s : SessionState) (ctr : Nat)
    (ts ts2 : String) (hsub : s.isSubmitted = false)
    (href : ∀ f ∈ s.uploadedFiles, f.data = none) :
    ((loadFromStorage env ctr ts2 (saveToStorage s ts)).1).formData =
      s.formData ∧
    ((loadFromStorage env ctr ts2 (saveToStorage s ts)).1).uploadedFiles =
      s.uploadedFiles := by
  have hmap : s.uploadedFiles.map projectFile = s.uploadedFiles := by
    rw [List.map_congr_left (fun f hf => projectFile_self f (href f hf))]
    exact List.map_id _
  have hsave : saveToStorage s ts =
      { s with localStore := some ⟨s.formData, s.uploadedFiles.map projectFile, ts⟩ } := by
    unfold saveToStorage
    rw [hsub]
    rfl
  have hload : loadFromStorage env ctr ts2 (saveToStorage s ts) =
      migrateLegacy env ctr ts2
        { s with formData := s.formData
                 uploadedFiles := s.uploadedFiles.map projectFile
                 localStore := some ⟨s.formData, s.uploadedFiles.map projectFile, ts⟩ } := by
    rw [hsave]
    rfl
  rw [hload, hmap]
  constructor
  · exact migrateLegacy_formData _ _ _ _
  · obtain ⟨hf, _⟩ := migrateLegacy_result_fields env ctr ts2
      { s with formData := s.formData
               uploadedFiles := s.uploadedFiles
               localStore := some ⟨s.formData, s.uploadedFiles, ts⟩ }
    rw [hf]
    exact (migrateFiles_stable env s.uploadedFiles ctr _
      (fun f hmem => migrates_false_of_data_none env f (href f hmem))).1

theorem save_load_roundtrip_witness :
    ((loadFromStorage envW 0 "t2" (saveToStorage refStateW "t1")).1).formData =
      refStateW.formData ∧
    ((loadFromStorage envW 0 "t2"
        (saveToStorage refStateW "t1")).1).uploadedFiles =
      refStateW.uploadedFiles :=
  save_load_roundtrip envW refStateW 0 "t1" "t2" rfl (by decide)

/-- Claim C2 is refuted on the code as stated: the snapshot posted in a
`CLAIM_DATA_RESPONSE` is `getClaimData()`, which forwards the *raw*
in-memory uploaded-file list; after a fresh upload (reachable here through
`processFile` on an empty session) the forwarded descriptor still carries
its inline base64 data URL, so the bridge snapshot does contain binary file
content. -/
theorem bridge_snapshot_inline_data_cex :
    handlePageMessage uploadedStateW "t1" "REQUEST_CLAIM_DATA" =
      some ⟨"CLAIM_DATA_RESPONSE",
        ⟨[], [⟨none, "photo.png", 4, "image/png",
               some "data:image/png;base64,AAAA"⟩], "t1"⟩⟩ ∧
    snapshotHasInlineFileData (getClaimData uploadedStateW "t1") = true := by
  constructor <;> rfl

/-- Claim C2 (amended): the `CLAIM_DATA_RESPONSE` snapshot consists of the
form-field map, the raw in-memory uploaded-file list, and a timestamp; it is
free of binary file content only when every descriptor is in reference form
(files uploaded in the current page session still carry inline base64 data
in the snapshot). -/
theorem bridge_snapshot_shape (s : SessionState) (ts : String) :
    handlePageMessage s ts "REQUEST_CLAIM_DATA" =
      some ⟨"CLAIM_DATA_RESPONSE", ⟨s.formData, s.uploadedFiles, ts⟩⟩ ∧
    ((∀ f ∈ s.uploadedFiles, f.data = none) →
      snapshotHasInlineFileData (getClaimData s ts) = false) := by
  constructor
  · rfl
  · intro h
    unfold snapshotHasInlineFileData getClaimData
    rw [List.any_eq_false]
    intro f hf
    simp [h f hf]

theorem bridge_snapshot_shape_witness :
    (handlePageMessage refStateW "t3" "REQUEST_CLAIM_DATA" =
      some ⟨"CLAIM_DATA_RESPONSE",
        ⟨refStateW.formData, refStateW.uploadedFiles, "t3"⟩⟩) ∧
    snapshotHasInlineFileData (getClaimData refStateW "t3") = false :=
  ⟨(bridge_snapshot_shape refStateW "t3").1,
   (bridge_snapshot_shape refStateW "t3").2 (by decide)⟩

/-- Claim C3 is refuted on the code as stated: `confirmSignature` stores the
signature-canvas PNG data URL under `formData.claimSignature` and calls
`saveToStorage`, so the snapshot written to durable metadata storage does
include inline base64 binary content (inside the form-field map). -/
theorem saved_snapshot_signature_dataurl_cex :
    (confirmSignature emptyState sigUrlW "t0").localStore =
      some ⟨[("claimSignature", FieldValue.str sigUrlW)], [], "t0"⟩ ∧
    snapshotFormDataHoldsDataUrl
      ⟨[("claimSignature", FieldValue.str sigUrlW)], [], "t0"⟩ = true := by
  constructor
  · rfl
  · decide

/-- Claim C3 (amended): the snapshot written by `saveToStorage` stores each
uploaded file as its `{ id, name, size, type }` projection — no file entry
carries inline data — together with a timestamp; the form-field map,
however, is persisted verbatim, and may itself contain inline base64
content such as the signature data URL stored by `confirmSignature`. -/
theorem saved_snapshot_file_projection (s : SessionState) (ts : String)
    (h : s.isSubmitted = false) :
    (saveToStorage s ts).localStore =
      some ⟨s.formData, s.uploadedFiles.map projectFile, ts⟩ ∧
    ∀ g ∈ s.uploadedFiles.map projectFile, g.data = none := by
  constructor
  · unfold saveToStorage
    rw [h]
    rfl
  · intro g hg
    obtain ⟨f, _, rfl⟩ := List.mem_map.mp hg
    rfl

theorem saved_snapshot_file_projection_witness :
    (saveToStorage uploadedStateW "t5").localStore =
      some ⟨uploadedStateW.formData,
            uploadedStateW.uploadedFiles.map projectFile, "t5"⟩ ∧
    ∀ g ∈ uploadedStateW.uploadedFiles.map projectFile, g.data = none :=
  saved_snapshot_file_projection uploadedStateW "t5" rfl

theorem removeFile_uploadedFiles (s : SessionState) (i : Int) (ts : String) :
    (removeFile s i ts).uploadedFiles = spliceRemoveOne s.uploadedFiles i := by
  unfold removeFile
  rw [saveToStorage_uploadedFiles]

theorem spliceRemoveOne_nonneg {α : Type} (l : List α) (i : Int)
    (h0 : 0 ≤ i) (h1 : i < (l.length : Int)) :
    spliceRemoveOne l i = l.take i.toNat ++ l.drop (i.toNat + 1) := by
  simp only [spliceRemoveOne]
  rw [if_neg (not_lt.mpr h0), min_eq_left (le_of_lt h1)]

theorem spliceRemoveOne_ge {α : Type} (l : List α) (i : Int)
    (h : (l.length : Int) ≤ i) : spliceRemoveOne l i = l := by
  simp only [spliceRemoveOne]
  have h0 : ¬ i < 0 := by omega
  rw [if_neg h0, min_eq_right h]
  have hlen : ((l.length : Int)).toNat = l.length := by omega
  rw [hlen, List.take_length, List.drop_eq_nil_of_le (by omega), List.append_nil]

theorem spliceRemoveOne_neg {α : Type} (l : List α) (i : Int) (h : i < 0) :
    spliceRemoveOne l i =
      l.take ((l.length : Int) + i).toNat ++
        l.drop (((l.length : Int) + i).toNat + 1) := by
  simp only [spliceRemoveOne]
  rw [if_pos h]

theorem take_drop_removed_length {α : Type} (l : List α) (start : Nat)
    (h : start < l.length) :
    (l.take start ++ l.drop (start + 1)).length + 1 = l.length := by
  simp only [List.length_append, List.length_take, List.length_drop]
  omega

/-- Claim C6 is refuted on the code as stated: `removeFile` uses
`splice(index, 1)`, and a negative index is not a no-op — `removeFile(-1)`
on a two-element list removes the last descriptor. -/
theorem removeFile_negative_index_cex :
    (removeFile twoFilesStateW (-1) "t").uploadedFiles = [fileAW] ∧
    (removeFile twoFilesStateW (-1) "t").uploadedFiles ≠
      twoFilesStateW.uploadedFiles := by
  constructor
  · rfl
  · decide

/-- Claim C6 (amended): `removeFile(i)` with `0 ≤ i < length` removes exactly
the descriptor at position `i` and shrinks the list by one; with
`i ≥ length` it is a no-op on the list; but a negative `i` follows
JavaScript splice semantics — it removes the descriptor at position
`max(length + i, 0)`, so on a nonempty list a negative index also shrinks
the list by one rather than being a no-op. -/
theorem removeFile_splice_spec (s : SessionState) (i : Int) (ts : String) :
    (0 ≤ i → i < (s.uploadedFiles.length : Int) →
      (removeFile s i ts).uploadedFiles =
        s.uploadedFiles.take i.toNat ++ s.uploadedFiles.drop (i.toNat + 1) ∧
      (removeFile s i ts).uploadedFiles.length + 1 =
        s.uploadedFiles.length) ∧
    ((s.uploadedFiles.length : Int) ≤ i →
      (removeFile s i ts).uploadedFiles = s.uploadedFiles) ∧
    (i < 0 →
      (removeFile s i ts).uploadedFiles =
        s.uploadedFiles.take ((s.uploadedFiles.length : Int) + i).toNat ++
          s.uploadedFiles.drop
            (((s.uploadedFiles.length : Int) + i).toNat + 1) ∧
      (s.uploadedFiles ≠ [] →
        (removeFile s i ts).uploadedFiles.length + 1 =
          s.uploadedFiles.length)) := by
  rw [removeFile_uploadedFiles]
  refine ⟨?_, ?_, ?_⟩
  · intro h0 h1
    rw [spliceRemoveOne_nonneg _ _ h0 h1]
    exact ⟨rfl, take_drop_removed_length _ _ (by omega)⟩
  · intro h
    exact spliceRemoveOne_ge _ _ h
  · intro h
    rw [spliceRemoveOne_neg _ _ h]
    refine ⟨rfl, fun hne => ?_⟩
    have hpos : 0 < s.uploadedFiles.length := List.length_pos.mpr hne
    exact take_drop_removed_length _ _ (by omega)

theorem removeFile_splice_spec_witness :
    ((removeFile twoFilesStateW 0 "t").uploadedFiles =
       twoFilesStateW.uploadedFiles.take (Int.toNat 0) ++
         twoFilesStateW.uploadedFiles.drop (Int.toNat 0 + 1) ∧
     (removeFile twoFilesStateW 0 "t").uploadedFiles.length + 1 =
       twoFilesStateW.uploadedFiles.length) ∧
    (removeFile twoFilesStateW 5 "t").uploadedFiles =
      twoFilesStateW.uploadedFiles :=
  ⟨(removeFile_splice_spec twoFilesStateW 0 "t").1 (by decide) (by decide),
   (removeFile_splice_spec twoFilesStateW 5 "t").2.1 (by decide)⟩

theorem migration_failure_isolated_witness :
    List.Forall₂ (fun f f' =>
      (migrates envW f = false → f' = f) ∧
      (migrates envW f = true →
        f'.id.isSome = true ∧ f'.data = none ∧ f'.name = f.name ∧
        f'.size = f.size ∧ f'.type = f.type))
      [legacyBadW, legacyGoodW, refFileW]
      (migrateFiles envW 0 [] [legacyBadW, legacyGoodW, refFileW]).files :=
  migration_failure_isolated envW 0 [] [legacyBadW, legacyGoodW, refFileW]

theorem processFiles_nil (env : Env) (ts : String) (s : SessionState) :
    processFiles env ts s [] = (s, []) := rfl

theorem processFiles_cons (env : Env) (ts : String) (s : SessionState)
    (f : RawFile) (fs : List RawFile) :
    processFiles env ts s (f :: fs) =
      ((processFiles env ts (processFile env ts s f).1 fs).1,
       (processFile env ts s f).2 ++
         (processFiles env ts (processFile env ts s f).1 fs).2) := rfl

theorem processFiles_append (env : Env) (ts : String) :
    ∀ (as bs : List RawFile) (s : SessionState),
    processFiles env ts s (as ++ bs) =
      ((processFiles env ts (processFiles env ts s as).1 bs).1,
       (processFiles env ts s as).2 ++
         (processFiles env ts (processFiles env ts s as).1 bs).2) := by
  intro as
  induction as with
  | nil => intro bs s; simp [processFiles_nil]
  | cons a rest ih =>
    intro bs s
    rw [List.cons_append, processFiles_cons, processFiles_cons, ih]
    simp [List.append_assoc]

theorem processFile_reject (env : Env) (ts : String) (s : SessionState)
    (f : RawFile) (h : (validateFile f).1 = false) :
    processFile env ts s f = (s, (validateFile f).2) := by
  unfold processFile
  rw [h]
  rfl

theorem validateFile_reject (f : RawFile) (h : (validateFile f).1 = false) :
    (validateFile f).2.length = 1 ∧
    ∀ m ∈ (validateFile f).2, m.kind = "error" := by
  unfold validateFile at h ⊢
  by_cases ht : f.type ∈ allowedTypes
  · by_cases hs : f.size > maxFileSize
    · simp [ht, hs]
    · simp [ht, hs] at h
  · simp [ht]

/-- Claim C8: a file rejected by `validateFile` (type outside the
allow-list, or size over 10MB) is processed without any effect on the
session — processing the batch with the rejected file yields exactly the
state of processing the batch without it (uploaded-file list unchanged, no
persistence for it), while exactly one rejection notification (an error
message) is emitted for it, in place, and the other files of the batch are
processed exactly as before. -/
theorem upload_rejection_isolated (env : Env) (s : SessionState) (ts : String)
    (pre post : List RawFile) (f : RawFile)
    (h : (validateFile f).1 = false) :
    (processFiles env ts s (pre ++ f :: post)).1 =
      (processFiles env ts s (pre ++ post)).1 ∧
    (processFiles env ts s (pre ++ f :: post)).2 =
      (processFiles env ts s pre).2 ++ (validateFile f).2 ++
        (processFiles env ts (processFiles env ts s pre).1 post).2 ∧
    (validateFile f).2.length = 1 ∧
    (∀ m ∈ (validateFile f).2, m.kind = "error") := by
  obtain ⟨hlen, hkind⟩ := validateFile_reject f h
  have ecdr : processFiles env ts (processFiles env ts s pre).1 (f :: post) =
      ((processFiles env ts (processFiles env ts s pre).1 post).1,
       (validateFile f).2 ++
         (processFiles env ts (processFiles env ts s pre).1 post).2) := by
    rw [processFiles_cons, processFile_reject env ts _ f h]
  refine ⟨?_, ?_, hlen, hkind⟩
  · rw [processFiles_append env ts pre (f :: post) s,
        processFiles_append env ts pre post s, ecdr]
  · rw [processFiles_append env ts pre (f :: post) s, ecdr]
    simp [List.append_assoc]

theorem upload_rejection_isolated_witness :
    (processFiles envW "t" emptyState ([] ++ txtW :: [pngW])).1 =
      (processFiles envW "t" emptyState ([] ++ [pngW])).1 ∧
    (processFiles envW "t" emptyState ([] ++ txtW :: [pngW])).2 =
      (processFiles envW "t" emptyState []).2 ++ (validateFile txtW).2 ++
        (processFiles envW "t" (processFiles envW "t" emptyState []).1
          [pngW]).2 ∧
    (validateFile txtW).2.length = 1 ∧
    (∀ m ∈ (validateFile txtW).2, m.kind = "error") :=
  upload_rejection_isolated envW emptyState "t" [] [pngW] txtW (by decide)

/-- Claim C9: the `/claim-data` fetch handler never hangs — with zero
connected page contexts it answers status 500 with body
`{ error: 'no-client' }`; with a client but the 1500ms timeout winning it
answers 500 with `{ error: 'timeout' }`; and a non-conforming reply (null
data or a message whose type is not `CLAIM_DATA_RESPONSE`) gets 500 with
`{ error: 'no-data' }` — all structured error bodies. -/
theorem bridge_error_responses (clients : List String) (reply : ReplyOutcome) :
    swTimeoutMs = 1500 ∧
    (clients = [] →
      swHandleClaimData clients reply = ⟨500, SWBody.errorBody "no-client"⟩) ∧
    (clients ≠ [] → reply = ReplyOutcome.timeout →
      swHandleClaimData clients reply = ⟨500, SWBody.errorBody "timeout"⟩) ∧
    (∀ m, clients ≠ [] → reply = ReplyOutcome.reply m →
      (∀ bm, m = some bm → bm.type ≠ "CLAIM_DATA_RESPONSE") →
      swHandleClaimData clients reply = ⟨500, SWBody.errorBody "no-data"⟩) := by
  refine ⟨rfl, ?_, ?_, ?_⟩
  · intro hc
    subst hc
    rfl
  · intro hne hr
    subst hr
    cases clients with
    | nil => exact absurd rfl hne
    | cons c cs => rfl
  · intro m hne hr hbad
    subst hr
    cases clients with
    | nil => exact absurd rfl hne
    | cons c cs =>
      cases m with
      | none => rfl
      | some bm =>
        have hb : ¬ bm.type = "CLAIM_DATA_RESPONSE" := hbad bm rfl
        show (if bm.type = "CLAIM_DATA_RESPONSE" then
                (⟨200, SWBody.json bm.data⟩ : SWResponse)
              else ⟨500, SWBody.errorBody "no-data"⟩) =
          ⟨500, SWBody.errorBody "no-data"⟩
        rw [if_neg hb]

theorem bridge_error_responses_witness :
    swHandleClaimData [] ReplyOutcome.timeout =
      ⟨500, SWBody.errorBody "no-client"⟩ ∧
    swHandleClaimData ["client-1"] ReplyOutcome.timeout =
      ⟨500, SWBody.errorBody "timeout"⟩ ∧
    swHandleClaimData ["client-1"]
        (ReplyOutcome.reply (some ⟨"PONG", ⟨[], [], "t"⟩⟩)) =
      ⟨500, SWBody.errorBody "no-data"⟩ :=
  ⟨(bridge_error_responses [] ReplyOutcome.timeout).2.1 rfl,
   (bridge_error_responses ["client-1"] ReplyOutcome.timeout).2.2.1
     (by decide) rfl,
   (bridge_error_responses ["client-1"]
       (ReplyOutcome.reply (some ⟨"PONG", ⟨[], [], "t"⟩⟩))).2.2.2
     (some ⟨"PONG", ⟨[], [], "t"⟩⟩) (by decide) rfl
     (fun bm hbm => by
        injection hbm with h2
        rw [← h2]
        decide)⟩

/-- Claim C10: `exportUploadedFiles` triggers a download only for
descriptors carrying an inline `data` field; a reference-form descriptor
(no inline data) yields no download but exactly its per-file error
notification, and every file of the list still gets its own export attempt
(one event per descriptor, in order), so one failing file does not stop the
export of the others. -/
theorem export_requires_inline_data (env : Env)
    (files : List FileDescriptor) :
    (exportUploadedFiles env files).length = files.length ∧
    List.Forall₂ (fun f e =>
      (f.data = none → e = ExportEvent.exportError f.name) ∧
      (∀ n b, e = ExportEvent.download n b → f.data.isSome = true))
      files (exportUploadedFiles env files) := by
  constructor
  · simp [exportUploadedFiles]
  · unfold exportUploadedFiles
    induction files with
    | nil => exact List.Forall₂.nil
    | cons f rest ih =>
      rw [List.map_cons]
      refine List.Forall₂.cons ⟨?_, ?_⟩ ih
      · intro hd
        simp [exportOneFile, hd]
      · intro n b he
        cases hd : f.data with
        | none => simp [exportOneFile, hd] at he
        | some d => simp [hd]

theorem export_requires_inline_data_witness :
    (exportUploadedFiles envW [refFileW, legacyGoodW]).length =
      ([refFileW, legacyGoodW] : List FileDescriptor).length ∧
    List.Forall₂ (fun f e =>
      (f.data = none → e = ExportEvent.exportError f.name) ∧
      (∀ n b, e = ExportEvent.download n b → f.data.isSome = true))
      [refFileW, legacyGoodW]
      (exportUploadedFiles envW [refFileW, legacyGoodW]) :=
  export_requires_inline_data envW [refFileW, legacyGoodW]

end ICS
